import Mathlib

/-!
Shallow embedding of `src/Generate_daily_video.py` (daily-youtube-bot) and
proofs about it.  Python floats are modelled as real numbers; the external
libraries (moviepy, numpy, the YouTube SDK) are modelled by explicit
definitions whose doc comments state which library behaviour they capture.
-/

namespace DailyVideo

/-- Embeds `W = 720` (video width, vertical 9:16). -/
def W : ℕ := 720

/-- Embeds `H = 1280` (video height). -/
def H : ℕ := 1280

/-- Embeds `FPS = 24`. -/
def FPS : ℕ := 24

/-- Embeds `DUR = 12` (seconds). -/
def DUR : ℕ := 12

/-- Embeds `OUT_DIR = "out"`. -/
def OUT_DIR : String := "out"

/-- Models `os.path.join(a, b)` for two relative components. -/
def pathJoin (a b : String) : String := a ++ "/" ++ b

/-- Embeds `OUT_PATH = os.path.join(OUT_DIR, "video.mp4")`. -/
def OUT_PATH : String := pathJoin OUT_DIR "video.mp4"

/-- Models Python `int()` applied to a float: truncation toward zero. -/
noncomputable def pyInt (r : ℝ) : ℤ :=
  if 0 ≤ r then ⌊r⌋ else ⌈r⌉

/-! ## Speed lines (`speedlines_clip`)

`speedlines_clip(duration, density, angle_deg, speed, opacity)` computes
`period = W // density`, `thickness = max(1, period // 3)`, and builds a
frame function `make_frame(t)` that fills `img[y, x:x+thickness] = 255`
for each `x in range(0, W, period)` with
`int(x + dx*y + int(speed*t)) % period < thickness`.
`dx = cos(radians(angle_deg))` is kept as a real parameter `dx` here. -/

/-- Embeds `period = W // density` (Python floor division). -/
def period (density : ℕ) : ℕ := W / density

/-- Embeds `thickness = max(1, period // 3)`. -/
def thickness (density : ℕ) : ℕ := max 1 (period density / 3)

/-- Embeds `shift = int(speed * t)`. -/
noncomputable def shift (speed t : ℝ) : ℤ := pyInt (speed * t)

/-- Embeds the per-pixel diagonal index `xi = int(x + dx * y + shift) % period`,
with the horizontal position generalised to an integer `x` so the shifted
pattern can be talked about.  Python `%` on a positive modulus is `Int.emod`
composed with a nonnegative normalisation, which `Int.emod` already gives. -/
noncomputable def xiVal (dx : ℝ) (density : ℕ) (s : ℤ) (y : ℕ) (x : ℤ) : ℤ :=
  pyInt ((x : ℝ) + dx * (y : ℝ) + (s : ℝ)) % (period density : ℤ)

/-- Embeds `range(0, W, period)`: the stride positions at which streaks are
anchored (requires `period ≥ 1`, as in Python where a zero step raises). -/
def strides (density : ℕ) : List ℕ :=
  (List.range ((W + period density - 1) / period density)).map
    (fun k => k * period density)

/-- A pixel `(y, px)` of `make_frame` is white: some stride `x` satisfies the
diagonal-index test and the slice `img[y, x:x+thickness] = 255` covers `px`
(numpy clips the slice at the array width `W`). -/
noncomputable def litPixel (dx : ℝ) (density : ℕ) (s : ℤ) (y px : ℕ) : Prop :=
  ∃ x ∈ strides density,
    xiVal dx density s y (x : ℤ) < (thickness density : ℤ) ∧
    x ≤ px ∧ px < x + thickness density ∧ px < W

/-- Embeds one entry of the buffer returned by `make_frame(t)`: the frame
starts as `np.zeros((H, W, 3), dtype=np.uint8)` and streak pixels are set to
`255` on all three channels. -/
noncomputable def framePx (dx : ℝ) (density : ℕ) (speed t : ℝ) (y px : ℕ) : ℕ :=
  @ite _ (litPixel dx density (shift speed t) y px)
    (Classical.propDecidable _) 255 0

/-- Embeds the shape of the buffer `np.zeros((H, W, 3), dtype=np.uint8)`
allocated by `make_frame(t)`. -/
def frameShape (_t : ℝ) : ℕ × ℕ × ℕ := (H, W, 3)

/-! ## Audio sample formulas (`tone`, `whoosh`, `thump`) -/

/-- Embeds the lambda of `tone`: `vol * np.sin(2 * np.pi * freq * t)`. -/
noncomputable def toneSample (freq vol t : ℝ) : ℝ :=
  vol * Real.sin (2 * Real.pi * freq * t)

/-- Embeds the lambda of `whoosh`: `0.25 * np.sin(2*np.pi*(80 + 220*t**2)*t)`. -/
noncomputable def whooshSample (t : ℝ) : ℝ :=
  0.25 * Real.sin (2 * Real.pi * (80 + 220 * t ^ 2) * t)

/-- Embeds the lambda of `thump`:
`0.35 * np.sin(2*np.pi*(60*(1 - t))*t) * np.exp(-6 * t)`. -/
noncomputable def thumpSample (t : ℝ) : ℝ :=
  0.35 * Real.sin (2 * Real.pi * (60 * (1 - t)) * t) * Real.exp (-6 * t)

/-! ## Audio clip algebra

An audio clip is modelled by its start offset on the composite timeline, its
duration, and its sample function.  The moviepy operations used by the script
are given their library semantics as explicit definitions. -/

/-- An audio clip: start offset, duration, and sample function. -/
structure Audio where
  start : ℝ
  duration : ℝ
  sample : ℝ → ℝ

/-- Embeds `tone(freq, dur, vol)`: an `AudioClip` with the sine-lambda sample. -/
noncomputable def tone (freq dur vol : ℝ) : Audio :=
  ⟨0, dur, toneSample freq vol⟩

/-- Embeds `whoosh(dur)`. -/
noncomputable def whoosh (dur : ℝ) : Audio :=
  ⟨0, dur, whooshSample⟩

/-- Embeds `thump(dur)`. -/
noncomputable def thump (dur : ℝ) : Audio :=
  ⟨0, dur, thumpSample⟩

/-- Models `clip.set_start(s)`: same content, placed at offset `s`. -/
def Audio.setStart (c : Audio) (s : ℝ) : Audio :=
  ⟨s, c.duration, c.sample⟩

/-- Models `clip.set_duration(d)`: same content, duration forced to `d`. -/
def Audio.setDuration (c : Audio) (d : ℝ) : Audio :=
  ⟨c.start, d, c.sample⟩

/-- Models `afx.audio_fadeout(clip, d)`: the last `d` seconds are scaled by
the numpy factor `min((duration - t)/d, 1)`.  For `d = 0` numpy evaluates
`(duration - t)/0.0` to `+inf` at every sampled time `t < duration`, so the
factor is `1` there and the clip is unchanged; Lean's `x/0 = 0` convention
would misrepresent that, hence the explicit branch. -/
noncomputable def Audio.fadeout (c : Audio) (d : ℝ) : Audio :=
  if d = 0 then c
  else ⟨c.start, c.duration, fun t => min ((c.duration - t) / d) 1 * c.sample t⟩

/-- Models `clip.fx(f)`: moviepy applies `f` to the clip and returns the
result, so `clip.fx(lambda c: c)` returns the clip itself. -/
def Audio.fx (c : Audio) (f : Audio → Audio) : Audio := f c

/-- Models `afx.volumex(clip, k)`: every sample scaled by `k`. -/
def Audio.volumex (c : Audio) (k : ℝ) : Audio :=
  ⟨c.start, c.duration, fun t => k * c.sample t⟩

/-- The contribution of a clip to the composite timeline at absolute time
`t`: its sample inside its window `[start, start + duration)`, silence
outside. -/
noncomputable def Audio.at (c : Audio) (t : ℝ) : ℝ :=
  if c.start ≤ t ∧ t < c.start + c.duration then c.sample (t - c.start) else 0

/-- Modelled from the spec: the refined loop "overlays thump(0.2) at each
impact time t".  Overlay is `CompositeAudioClip`-style layering — samples
add, the window spans both clips.  This is the spec-side definition for the
refinement claim; the script's own `audio + ...` is modelled separately
(and faithfully raises, see `addAudioClips`). -/
noncomputable def Audio.overlay (a b : Audio) : Audio :=
  ⟨min a.start b.start,
   max (a.start + a.duration) (b.start + b.duration) - min a.start b.start,
   fun t => Audio.at a (min a.start b.start + t) + Audio.at b (min a.start b.start + t)⟩

/-- The exception raised by the attribute lookup `audio.set_audio` on a
moviepy-1.x `AudioClip`. -/
def attrErrSetAudio : String :=
  "AttributeError: 'AudioClip' object has no attribute 'set_audio'"

/-- Models the attribute lookup `audio.set_audio` on an `AudioClip`.  The
script imports from `moviepy.editor`, which exists only in moviepy 1.x;
there `set_audio` is defined on `VideoClip` alone, and `moviepy/editor.py`
adds only the afx methods (`audio_fadein`, `audio_fadeout`, `audio_loop`,
`audio_normalize`, `volumex`) to `AudioClip`.  The lookup therefore raises
`AttributeError` — Python resolves the attribute before evaluating the call
arguments. -/
def setAudioLookup : Except String (Audio → Audio → Audio) :=
  Except.error attrErrSetAudio

/-- The exception raised by `audio + other` on moviepy-1.x clips. -/
def typeErrAdd : String :=
  "TypeError: unsupported operand type(s) for +: 'AudioClip' and 'AudioClip'"

/-- Models `audio + other` on moviepy-1.x clips: `Clip` defines no `+`
operator in 1.x (operators arrived in 2.0, where `+` concatenates), so the
addition raises `TypeError`. -/
def addAudioClips : Except String (Audio → Audio → Audio) :=
  Except.error typeErrAdd

/-- Embeds `impact_times = [3.6, 4.2, 5.1, 6.0, 6.9, 7.8, 8.6, 9.2]`. -/
noncomputable def impact_times : List ℝ := [3.6, 4.2, 5.1, 6.0, 6.9, 7.8, 8.6, 9.2]

/-- Embeds one iteration of the audio loop in `build_video` exactly as
written (lines 115-119):
`audio = audio.set_audio(audio.audio_fadeout(0.0)).fx(lambda c: c)`;
`audio = audio.set_duration(max(audio.duration, t + 0.2))`;
`audio = audio.audio_fadeout(0.0).fx(lambda c: c)`;
`audio = audio.set_audio(audio)`;
`audio = audio.set_audio((audio + thump(0.2).set_start(t)).volumex(1))`.
Exceptions are tracked in `Except`, in Python's evaluation order: line 115
resolves the attribute `audio.set_audio` before evaluating its argument,
and that lookup raises on an `AudioClip` (see `setAudioLookup`), so the
remaining statements are dead code; they are nevertheless spelled out,
including the later `set_audio` lookups and the unsupported `+` of
line 119. -/
noncomputable def audioLoopBody (audio : Audio) (t : ℝ) : Except String Audio := do
  let sa1 ← setAudioLookup
  let a1 := (sa1 audio (audio.fadeout 0)).fx (fun c => c)
  let a2 := a1.setDuration (max a1.duration (t + 0.2))
  let a3 := (a2.fadeout 0).fx (fun c => c)
  let sa2 ← setAudioLookup
  let a4 := sa2 a3 a3
  let sa3 ← setAudioLookup
  let plus ← addAudioClips
  pure (sa3 a4 ((plus a4 ((thump 0.2).setStart t)).volumex 1))

/-- The refined loop body described by the spec (the spec-side definition of
the refinement claim): only extend the duration to `t + 0.2` and overlay
`thump(0.2)` at impact time `t`. -/
noncomputable def refinedLoopBody (audio : Audio) (t : ℝ) : Audio :=
  let a := audio.setDuration (max audio.duration (t + 0.2))
  a.overlay ((thump 0.2).setStart t)

/-- Embeds the audio-track construction of `build_video`:
`audio = whoosh(0.35).set_start(1.55)` followed by the loop over
`impact_times`, exceptions propagating. -/
noncomputable def audioTrack : Except String Audio :=
  List.foldlM audioLoopBody ((whoosh 0.35).setStart 1.55) impact_times

/-- The same construction with the spec's refined loop body. -/
noncomputable def refinedAudioTrack : Audio :=
  List.foldl refinedLoopBody ((whoosh 0.35).setStart 1.55) impact_times

/-! ## Shake position (`shake_pos`) -/

/-- A Python `random.Random(seed).randint` oracle together with its
documented contract: the `k`-th `randint(a, b)` call on the generator seeded
with `seed` returns an integer in `[a, b]`.  The Mersenne-Twister internals
are external-library code; only the contract is modelled. -/
structure RandintOracle where
  f : ℤ → ℕ → ℤ → ℤ → ℤ
  inRange : ∀ seed k a b, a ≤ b → a ≤ f seed k a b ∧ f seed k a b ≤ b

/-- Embeds the `pos` closure of `shake_pos(intensity)`:
`rng = random.Random(int(t*1000) + 42)` then two calls
`rng.randint(-intensity, intensity)`. -/
noncomputable def shake_pos (r : RandintOracle) (intensity : ℤ) (t : ℝ) : ℤ × ℤ :=
  let seed := pyInt (t * 1000) + 42
  (r.f seed 0 (-intensity) intensity, r.f seed 1 (-intensity) intensity)

/-! ## Fighter sampling (`random.sample(fighters, 2)`) -/

/-- Embeds the `fighters` roster of `build_video`. -/
def fighters : List (String × String) :=
  [("KAZE", "#ff3b3b"), ("RYU", "#35f0ff"), ("AKIRA", "#ffd23b"),
   ("SHIN", "#b05cff"), ("YUMI", "#7bff7b"), ("REI", "#ff7be7")]

/-- Models CPython `random.sample(l, 2)` for a small population: the pool
based partial Fisher-Yates step.  `rb i m` is the `i`-th `_randbelow(m)`
draw, contracted to `rb i m < m` in the theorems.  The algorithm is
`j0 = randbelow(n); result[0] = pool[j0]; pool[j0] = pool[n-1];
j1 = randbelow(n-1); result[1] = pool[j1]`. -/
def sampleTwo (rb : ℕ → ℕ → ℕ) (l : List (String × String)) :
    (String × String) × (String × String) :=
  let n := l.length
  let j0 := rb 0 n
  let r0 := l.getD j0 ("", "")
  let pool1 := l.set j0 (l.getD (n - 1) ("", ""))
  let j1 := rb 1 (n - 1)
  (r0, pool1.getD j1 ("", ""))

/-- `sampleTwo` with the two `_randbelow` draws abstracted out as plain
indices; `sampleTwo rb l` is definitionally
`sampleTwoIdx (rb 0 l.length) (rb 1 (l.length - 1)) l`. -/
def sampleTwoIdx (j0 j1 : ℕ) (l : List (String × String)) :
    (String × String) × (String × String) :=
  (l.getD j0 ("", ""),
   (l.set j0 (l.getD (l.length - 1) ("", ""))).getD j1 ("", ""))

/-- Embeds `left, right = random.sample(fighters, 2)`. -/
def chooseFighters (rb : ℕ → ℕ → ℕ) : (String × String) × (String × String) :=
  sampleTwo rb fighters

/-! ## build_video and the upload step -/

/-- The prints that lines 132 and 134 of `build_video` would make on being
reached: `"Rendering video..."` before encoding and `f"Saved: {OUT_PATH}"`
after; both sit after the audio loop, so neither is reached. -/
def buildPrints : List String :=
  ["Rendering video...", "Saved: " ++ OUT_PATH]

/-- Embeds `build_video()` faithfully: the fighters are sampled (line 79)
and the visual clips constructed, then the audio loop of lines 113-119
runs; its first iteration raises `AttributeError` at line 115, so control
never reaches the composite (line 122), `set_audio(base_tone)` (line 130),
the encoding, or the prints.  On the (unreachable) success path the
function returns the output path and its prints. -/
noncomputable def build_video (rb : ℕ → ℕ → ℕ) :
    Except String (String × List String) := do
  let _lr := chooseFighters rb
  let _audio ← audioTrack
  pure (OUT_PATH, buildPrints)

/-- Models Python truthiness of `os.getenv` results: `None` and the empty
string are falsy, any other string is truthy. -/
def truthy : Option String → Bool
  | none => false
  | some s => !(s == "")

/-- Overrides one variable of an environment (used to compare a variable
set to the empty string with the same variable unset). -/
def setEnv (env : String → Option String) (k : String) (v : Option String) :
    String → Option String :=
  fun x => if x = k then v else env x

/-- Embeds the credential gate `cid and csec and rtok` of
`maybe_upload_to_youtube`. -/
def credsPresent (env : String → Option String) : Bool :=
  truthy (env "YT_CLIENT_ID") && truthy (env "YT_CLIENT_SECRET") &&
    truthy (env "YT_REFRESH_TOKEN")

/-- The external calls made inside the `try` block, as fallible oracles:
the SDK imports, `Credentials(...)`, `build("youtube", "v3", ...)`,
`MediaFileUpload(...)`, and `videos().insert(...).execute()` (returning the
uploaded video id).  A `.error e` models that call raising exception `e`. -/
structure UploadExt where
  importsRes : Except String Unit
  credsRes : Except String Unit
  clientRes : Except String Unit
  mediaRes : Except String Unit
  insertRes : Except String String

/-- The notice printed when credentials are missing. -/
def skipNotice : String := "YouTube secrets not set. Skipping upload."

/-- Runs the `try` body of `maybe_upload_to_youtube` against the oracles:
returns the exception that escapes the body (if any), the list of external
calls attempted, and the prints made so far. -/
def tryUpload (ext : UploadExt) : Option String × List String × List String :=
  match ext.importsRes with
  | .error e => (some e, ["import"], [])
  | .ok _ =>
  match ext.credsRes with
  | .error e => (some e, ["import", "Credentials"], [])
  | .ok _ =>
  match ext.clientRes with
  | .error e => (some e, ["import", "Credentials", "build"], [])
  | .ok _ =>
  match ext.mediaRes with
  | .error e => (some e, ["import", "Credentials", "build", "MediaFileUpload"], [])
  | .ok _ =>
  match ext.insertRes with
  | .error e =>
      (some e, ["import", "Credentials", "build", "MediaFileUpload", "insert"],
       ["Uploading to YouTube..."])
  | .ok vid =>
      (none, ["import", "Credentials", "build", "MediaFileUpload", "insert"],
       ["Uploading to YouTube...",
        "Uploaded: https://www.youtube.com/watch?v=" ++ vid])

/-- The observable outcome of the upload step: external calls attempted and
lines printed. -/
structure UploadResult where
  calls : List String
  prints : List String
deriving DecidableEq

/-- Embeds `maybe_upload_to_youtube(video_path)` as an `Except`, so that an
exception escaping the function would show up as `.error`: the credential
gate skips with a notice; otherwise the `try` body runs and the
`except Exception` clause turns any escaped exception into the
`"YouTube upload failed: ..."` log line and a normal return. -/
def maybe_upload_to_youtube (env : String → Option String) (ext : UploadExt)
    (_video_path : String) : Except String UploadResult :=
  if credsPresent env then
    match tryUpload ext with
    | (none, calls, prints) => .ok ⟨calls, prints⟩
    | (some e, calls, prints) =>
        .ok ⟨calls, prints ++ ["YouTube upload failed: " ++ e]⟩
  else .ok ⟨[], [skipNotice]⟩

/-- Embeds `main()`: `path = build_video()` then
`maybe_upload_to_youtube(path)`; an exception escaping either step
propagates to `.error` — in particular the `AttributeError` from
`build_video`'s audio loop. -/
noncomputable def main (env : String → Option String) (ext : UploadExt)
    (rb : ℕ → ℕ → ℕ) : Except String (String × List String) := do
  let b ← build_video rb
  let u ← maybe_upload_to_youtube env ext b.1
  return (b.1, b.2 ++ u.prints)

/-! ## Helper lemmas -/

/-- The loop body raises at its first statement, the `set_audio` lookup. -/
lemma audioLoopBody_err (a : Audio) (t : ℝ) :
    audioLoopBody a t = Except.error attrErrSetAudio := rfl

/-- Folding the loop body over a nonempty list of impact times raises. -/
lemma foldlM_audioLoopBody_err (a : Audio) (t : ℝ) (ts : List ℝ) :
    List.foldlM audioLoopBody a (t :: ts) = Except.error attrErrSetAudio := rfl

/-- The audio-track construction raises on the first impact time, `3.6`. -/
lemma audioTrack_err : audioTrack = Except.error attrErrSetAudio :=
  foldlM_audioLoopBody_err ((whoosh 0.35).setStart 1.55) 3.6
    [4.2, 5.1, 6.0, 6.9, 7.8, 8.6, 9.2]

/-- `build_video` raises the `AttributeError` of line 115. -/
lemma build_video_err (rb : ℕ → ℕ → ℕ) :
    build_video rb = Except.error attrErrSetAudio := by
  unfold build_video
  rw [audioTrack_err]
  rfl

/-- `main` dies inside `build_video`, before the upload step. -/
lemma main_err (env : String → Option String) (ext : UploadExt)
    (rb : ℕ → ℕ → ℕ) : main env ext rb = Except.error attrErrSetAudio := by
  unfold main
  rw [build_video_err]
  rfl

/-! ## Claim theorems -/

/-- C1.  The claim fails on the code, and more strongly than a wrong
attachment: for every choice of fighters, `build_video` raises
`AttributeError` at line 115 (moviepy-1.x `AudioClip` has no `set_audio`)
on the first impact time, so no composite clip is ever built and no audio
— layered or otherwise — is ever attached. -/
theorem c1_composite_audio_never_attached (rb : ℕ → ℕ → ℕ) :
    build_video rb = Except.error attrErrSetAudio ∧
    audioTrack = Except.error attrErrSetAudio :=
  ⟨build_video_err rb, audioTrack_err⟩

/-- C6.  Each audio synthesizer is the stated closed-form pure function of
sample time `t`: `tone` is `vol*sin(2π·freq·t)`, `whoosh` is
`0.25*sin(2π·(80+220·t²)·t)`, `thump` is
`0.35*sin(2π·(60·(1−t))·t)·exp(−6t)`, and evaluating any of them twice at
the same `t` yields the same sample. -/
theorem c6_audio_synth_closed_forms (freq dur vol t : ℝ) :
    (tone freq dur vol).sample t = vol * Real.sin (2 * Real.pi * freq * t) ∧
    (whoosh dur).sample t = 0.25 * Real.sin (2 * Real.pi * (80 + 220 * t ^ 2) * t) ∧
    (thump dur).sample t =
      0.35 * Real.sin (2 * Real.pi * (60 * (1 - t)) * t) * Real.exp (-6 * t) ∧
    (∀ t1 t2 : ℝ, t1 = t2 →
      (tone freq dur vol).sample t1 = (tone freq dur vol).sample t2 ∧
      (whoosh dur).sample t1 = (whoosh dur).sample t2 ∧
      (thump dur).sample t1 = (thump dur).sample t2) := by
  refine ⟨rfl, rfl, rfl, ?_⟩
  intro t1 t2 h
  rw [h]
  exact ⟨rfl, rfl, rfl⟩

/-- Witness for C6 at `freq = 440`, `dur = 12`, `vol = 0.03`, `t = 0`. -/
theorem c6_audio_synth_closed_forms_witness :
    (tone 440 12 0.03).sample 0 = 0.03 * Real.sin (2 * Real.pi * 440 * 0) :=
  (c6_audio_synth_closed_forms 440 12 0.03 0).1

/-- C7 counterexample.  At the script's own initial clip
(`whoosh(0.35).set_start(1.55)`) and its own impact times, the loop as
written is not equivalent to the refined extend-and-overlay loop: it raises
`AttributeError` at its first `set_audio` lookup, while the refined loop
denotes a clip. -/
theorem c7_audio_loop_noop_counterexample :
    audioTrack ≠ Except.ok refinedAudioTrack ∧
    audioTrack = Except.error attrErrSetAudio := by
  refine ⟨?_, audioTrack_err⟩
  rw [audioTrack_err]
  exact fun h => Except.noConfusion h

/-- C7 (amended).  The audio-track construction lines are not no-ops: the
first statement of every loop iteration raises `AttributeError`
(moviepy-1.x `AudioClip` has no `set_audio`), so over any nonempty list of
impact times the loop as written raises instead of producing the refined
extend-and-overlay track. -/
theorem c7_audio_loop_raises (a : Audio) (t : ℝ) (ts : List ℝ) :
    List.foldlM audioLoopBody a (t :: ts) = Except.error attrErrSetAudio ∧
    audioLoopBody a t = Except.error attrErrSetAudio ∧
    audioTrack = Except.error attrErrSetAudio :=
  ⟨foldlM_audioLoopBody_err a t ts, audioLoopBody_err a t, audioTrack_err⟩

/-- C9.  Setting any one of the three credential variables to the empty
string makes `maybe_upload_to_youtube` behave exactly as when that variable
is unset: Python truthiness treats `""` like `None`. -/
theorem c9_empty_string_credentials_like_unset (env : String → Option String)
    (ext : UploadExt) (p : String) :
    maybe_upload_to_youtube (setEnv env "YT_CLIENT_ID" (some "")) ext p =
      maybe_upload_to_youtube (setEnv env "YT_CLIENT_ID" none) ext p ∧
    maybe_upload_to_youtube (setEnv env "YT_CLIENT_SECRET" (some "")) ext p =
      maybe_upload_to_youtube (setEnv env "YT_CLIENT_SECRET" none) ext p ∧
    maybe_upload_to_youtube (setEnv env "YT_REFRESH_TOKEN" (some "")) ext p =
      maybe_upload_to_youtube (setEnv env "YT_REFRESH_TOKEN" none) ext p := by
  refine ⟨?_, ?_, ?_⟩ <;>
    simp [maybe_upload_to_youtube, credsPresent, setEnv, truthy]

/-- C2.  The skip half of the claim holds of the code: with any credential
variable absent or falsy, `maybe_upload_to_youtube` makes no external call
(its call list is empty), prints only the skip notice, and returns
normally.  The other half fails: `main` never reports the output path,
because `build_video` raises `AttributeError` at line 115 — before printing
`"Saved: out/video.mp4"` and before the upload step can run at all. -/
theorem c2_missing_credentials_skip_upload (env : String → Option String)
    (ext : UploadExt) (rb : ℕ → ℕ → ℕ)
    (h : truthy (env "YT_CLIENT_ID") = false ∨
         truthy (env "YT_CLIENT_SECRET") = false ∨
         truthy (env "YT_REFRESH_TOKEN") = false) :
    maybe_upload_to_youtube env ext OUT_PATH = Except.ok ⟨[], [skipNotice]⟩ ∧
    main env ext rb = Except.error attrErrSetAudio := by
  have hc : credsPresent env = false := by
    rcases h with h | h | h <;> simp [credsPresent, h]
  exact ⟨by simp [maybe_upload_to_youtube, hc], main_err env ext rb⟩

/-- Witness for C2: every credential unset. -/
theorem c2_missing_credentials_skip_upload_witness :
    (truthy ((fun _ => none : String → Option String) "YT_CLIENT_ID") = false ∨
     truthy ((fun _ => none : String → Option String) "YT_CLIENT_SECRET") = false ∨
     truthy ((fun _ => none : String → Option String) "YT_REFRESH_TOKEN") = false) ∧
    (maybe_upload_to_youtube (fun _ => none)
        ⟨Except.ok (), Except.ok (), Except.ok (), Except.ok (), Except.ok ""⟩
        OUT_PATH = Except.ok ⟨[], [skipNotice]⟩ ∧
     main (fun _ => none)
        ⟨Except.ok (), Except.ok (), Except.ok (), Except.ok (), Except.ok ""⟩
        (fun _ _ => 0) = Except.error attrErrSetAudio) :=
  ⟨Or.inl rfl,
   c2_missing_credentials_skip_upload (fun _ => none)
     ⟨Except.ok (), Except.ok (), Except.ok (), Except.ok (), Except.ok ""⟩
     (fun _ _ => 0) (Or.inl rfl)⟩

/-- C3.  The catch-all half of the claim holds of `maybe_upload_to_youtube`
itself: whenever the `try` body escapes with exception `e`, the function
returns normally (an `Except.ok` value) with the
`"YouTube upload failed: ..."` log line appended.  The other half fails:
`main` never completes after `build_video`, because `build_video` itself
raises `AttributeError` at line 115 and `maybe_upload_to_youtube` is never
reached. -/
theorem c3_upload_exceptions_caught (env : String → Option String)
    (ext : UploadExt) (rb : ℕ → ℕ → ℕ) (e : String)
    (h : (tryUpload ext).1 = some e) :
    maybe_upload_to_youtube env ext OUT_PATH =
      (if credsPresent env then
        Except.ok ⟨(tryUpload ext).2.1,
          (tryUpload ext).2.2 ++ ["YouTube upload failed: " ++ e]⟩
       else Except.ok ⟨[], [skipNotice]⟩) ∧
    (∃ r : UploadResult, maybe_upload_to_youtube env ext OUT_PATH = Except.ok r) ∧
    main env ext rb = Except.error attrErrSetAudio := by
  rcases htu : tryUpload ext with ⟨o, calls, prints⟩
  rw [htu] at h
  simp only at h
  subst h
  by_cases hc : credsPresent env = true
  · refine ⟨?_, ?_, main_err env ext rb⟩
    · simp [maybe_upload_to_youtube, hc, htu]
    · exact ⟨⟨calls, prints ++ ["YouTube upload failed: " ++ e]⟩,
        by simp [maybe_upload_to_youtube, hc, htu]⟩
  · have hc' : credsPresent env = false := by
      revert hc; cases credsPresent env <;> simp
    refine ⟨?_, ?_, main_err env ext rb⟩
    · simp [maybe_upload_to_youtube, hc']
    · exact ⟨⟨[], [skipNotice]⟩, by simp [maybe_upload_to_youtube, hc']⟩

/-- Witness for C3: credentials present, `Credentials(...)` raises `"boom"`. -/
theorem c3_upload_exceptions_caught_witness :
    (tryUpload ⟨Except.ok (), Except.error "boom", Except.ok (), Except.ok (),
        Except.ok ""⟩).1 = some "boom" ∧
    (maybe_upload_to_youtube (fun _ => some "x")
        ⟨Except.ok (), Except.error "boom", Except.ok (), Except.ok (), Except.ok ""⟩
        OUT_PATH =
      (if credsPresent (fun _ => some "x") then
        Except.ok ⟨(tryUpload ⟨Except.ok (), Except.error "boom", Except.ok (),
            Except.ok (), Except.ok ""⟩).2.1,
          (tryUpload ⟨Except.ok (), Except.error "boom", Except.ok (), Except.ok (),
            Except.ok ""⟩).2.2 ++ ["YouTube upload failed: " ++ "boom"]⟩
       else Except.ok ⟨[], [skipNotice]⟩) ∧
     (∃ r : UploadResult, maybe_upload_to_youtube (fun _ => some "x")
        ⟨Except.ok (), Except.error "boom", Except.ok (), Except.ok (), Except.ok ""⟩
        OUT_PATH = Except.ok r) ∧
     main (fun _ => some "x")
        ⟨Except.ok (), Except.error "boom", Except.ok (), Except.ok (), Except.ok ""⟩
        (fun _ _ => 0) = Except.error attrErrSetAudio) :=
  ⟨rfl,
   c3_upload_exceptions_caught (fun _ => some "x")
     ⟨Except.ok (), Except.error "boom", Except.ok (), Except.ok (), Except.ok ""⟩
     (fun _ _ => 0) "boom" rfl⟩

/-- C4.  Whenever the two `_randbelow` draws respect their bounds (`< 6`
and `< 5`, as the library guarantees), the chosen fighters are distinct and
both belong to the fixed six-entry roster. -/
theorem c4_fighters_distinct_from_roster (rb : ℕ → ℕ → ℕ)
    (h0 : rb 0 6 < 6) (h1 : rb 1 5 < 5) :
    (chooseFighters rb).1 ≠ (chooseFighters rb).2 ∧
    (chooseFighters rb).1 ∈ fighters ∧ (chooseFighters rb).2 ∈ fighters := by
  have hch : chooseFighters rb = sampleTwoIdx (rb 0 6) (rb 1 5) fighters := rfl
  rw [hch]
  generalize rb 0 6 = j0 at h0 ⊢
  generalize rb 1 5 = j1 at h1 ⊢
  interval_cases j0 <;> interval_cases j1 <;> decide

/-- Witness for C4 with both draws at index 0: `left = KAZE`, `right = REI`. -/
theorem c4_fighters_distinct_from_roster_witness :
    ((fun _ _ => 0 : ℕ → ℕ → ℕ) 0 6 < 6 ∧ (fun _ _ => 0 : ℕ → ℕ → ℕ) 1 5 < 5) ∧
    ((chooseFighters (fun _ _ => 0)).1 ≠ (chooseFighters (fun _ _ => 0)).2 ∧
     (chooseFighters (fun _ _ => 0)).1 ∈ fighters ∧
     (chooseFighters (fun _ _ => 0)).2 ∈ fighters) :=
  ⟨⟨by decide, by decide⟩,
   c4_fighters_distinct_from_roster (fun _ _ => 0) (by decide) (by decide)⟩

/-- C10.  The shake position function is deterministic through the seed
`int(t*1000) + 42` — two times with the same millisecond index give the same
offsets — and, for intensity `i ≥ 0`, both coordinates lie in `[-i, i]`. -/
theorem c10_shake_pos_deterministic_bounded (r : RandintOracle) (i : ℤ)
    (t1 t2 t : ℝ) (hi : 0 ≤ i) (ht : pyInt (t1 * 1000) = pyInt (t2 * 1000)) :
    shake_pos r i t1 = shake_pos r i t2 ∧
    -i ≤ (shake_pos r i t).1 ∧ (shake_pos r i t).1 ≤ i ∧
    -i ≤ (shake_pos r i t).2 ∧ (shake_pos r i t).2 ≤ i := by
  have hb : -i ≤ i := by linarith
  refine ⟨?_, ?_, ?_, ?_, ?_⟩
  · simp only [shake_pos, ht]
  · exact (r.inRange (pyInt (t * 1000) + 42) 0 (-i) i hb).1
  · exact (r.inRange (pyInt (t * 1000) + 42) 0 (-i) i hb).2
  · exact (r.inRange (pyInt (t * 1000) + 42) 1 (-i) i hb).1
  · exact (r.inRange (pyInt (t * 1000) + 42) 1 (-i) i hb).2

/-- Witness for C10: the lower-bound oracle, intensity `10`, all times `0`. -/
theorem c10_shake_pos_deterministic_bounded_witness :
    0 ≤ (10 : ℤ) ∧ pyInt ((0 : ℝ) * 1000) = pyInt ((0 : ℝ) * 1000) ∧
    (shake_pos ⟨fun _ _ a _ => a, fun _ _ a _b hab => ⟨le_refl a, hab⟩⟩ 10 0 =
       shake_pos ⟨fun _ _ a _ => a, fun _ _ a _b hab => ⟨le_refl a, hab⟩⟩ 10 0 ∧
     -10 ≤ (shake_pos ⟨fun _ _ a _ => a, fun _ _ a _b hab => ⟨le_refl a, hab⟩⟩ 10 0).1 ∧
     (shake_pos ⟨fun _ _ a _ => a, fun _ _ a _b hab => ⟨le_refl a, hab⟩⟩ 10 0).1 ≤ 10 ∧
     -10 ≤ (shake_pos ⟨fun _ _ a _ => a, fun _ _ a _b hab => ⟨le_refl a, hab⟩⟩ 10 0).2 ∧
     (shake_pos ⟨fun _ _ a _ => a, fun _ _ a _b hab => ⟨le_refl a, hab⟩⟩ 10 0).2 ≤ 10) :=
  ⟨by decide, rfl,
   c10_shake_pos_deterministic_bounded
     ⟨fun _ _ a _ => a, fun _ _ a _b hab => ⟨le_refl a, hab⟩⟩ 10 0 0 0 (by decide) rfl⟩

/-- The streak thickness is positive. -/
lemma thickness_pos (density : ℕ) : 0 < thickness density :=
  lt_of_lt_of_le Nat.zero_lt_one (le_max_left 1 _)

/-- The streak thickness never exceeds the stride period. -/
lemma thickness_le_period {density : ℕ} (hp : 0 < period density) :
    thickness density ≤ period density :=
  max_le hp (Nat.div_le_self _ _)

/-- Membership in the stride list `range(0, W, period)`. -/
lemma mem_strides {density x : ℕ} :
    x ∈ strides density ↔
    ∃ k, k < (W + period density - 1) / period density ∧
      x = k * period density := by
  simp [strides, eq_comm]

/-- Every stride position lies inside the frame width. -/
lemma strides_lt_W {density x : ℕ} (hp : 0 < period density)
    (hx : x ∈ strides density) : x < W := by
  obtain ⟨k, hk, rfl⟩ := mem_strides.mp hx
  have h1 : (k + 1) * period density ≤
      ((W + period density - 1) / period density) * period density :=
    Nat.mul_le_mul_right _ hk
  have h2 : ((W + period density - 1) / period density) * period density ≤
      W + period density - 1 := Nat.div_mul_le_self _ _
  have h3 := le_trans h1 h2
  rw [Nat.succ_mul] at h3
  have hW : W = 720 := rfl
  omega

/-- A streak anchored at stride `x'` covers stride position `x` only when
`x' = x`: consecutive strides are `period` apart and streaks are at most
`period` wide. -/
lemma stride_eq_of_cover {density x x' : ℕ} (hp : 0 < period density)
    (hx : x ∈ strides density) (hx' : x' ∈ strides density)
    (hle : x' ≤ x) (hlt : x < x' + thickness density) : x' = x := by
  obtain ⟨k, hk, rfl⟩ := mem_strides.mp hx
  obtain ⟨k', hk', rfl⟩ := mem_strides.mp hx'
  have hth : thickness density ≤ period density := thickness_le_period hp
  have h1 : k' ≤ k := Nat.le_of_mul_le_mul_right hle hp
  have h2 : k < k' + 1 := by
    have hmul : k * period density < (k' + 1) * period density := by
      calc k * period density < k' * period density + thickness density := hlt
        _ ≤ k' * period density + period density := by omega
        _ = (k' + 1) * period density := by ring
    exact Nat.lt_of_mul_lt_mul_right hmul
  have : k' = k := le_antisymm h1 (Nat.lt_succ_iff.mp h2)
  rw [this]

/-- At time `0` the shift is `0`. -/
lemma shift_zero (speed : ℝ) : shift speed 0 = 0 := by
  simp [shift, pyInt]

/-- C5.  At every stride position `x` the frame of the speed-line generator
at time `t` lights the streak exactly when
`int(x + dx*y + int(speed*t)) % period < thickness`, and the diagonal-index
test at time `t` is the test of the time-`0` frame translated by
`int(speed*t)` along the stripe modulus. -/
theorem c5_speedlines_shift_pattern (dx speed t : ℝ) (density y x : ℕ)
    (hx : x ∈ strides density) (hp : 0 < period density) :
    (framePx dx density speed t y x = 255 ↔
      xiVal dx density (shift speed t) y (x : ℤ) < (thickness density : ℤ)) ∧
    (∀ z : ℤ, xiVal dx density (shift speed t) y z =
      xiVal dx density (shift speed 0) y (z + shift speed t)) := by
  constructor
  · have hiff : framePx dx density speed t y x = 255 ↔
        litPixel dx density (shift speed t) y x := by
      by_cases h : litPixel dx density (shift speed t) y x
      · simp [framePx, h]
      · simp [framePx, h]
    rw [hiff]
    constructor
    · rintro ⟨x', hx', hcond, hle, hltt, _⟩
      rwa [stride_eq_of_cover hp hx hx' hle hltt] at hcond
    · intro hcond
      exact ⟨x, hx, hcond, le_refl x,
        Nat.lt_add_of_pos_right (thickness_pos density), strides_lt_W hp hx⟩
  · intro z
    rw [shift_zero]
    unfold xiVal
    congr 1
    congr 1
    push_cast
    ring

/-- Witness for C5 at `dx = 0`, `speed = 600`, `t = 1`, `density = 14`,
`y = 0`, stride `x = 0`. -/
theorem c5_speedlines_shift_pattern_witness :
    (0 : ℕ) ∈ strides 14 ∧ 0 < period 14 ∧
    ((framePx 0 14 600 1 0 0 = 255 ↔
        xiVal 0 14 (shift 600 1) 0 ((0 : ℕ) : ℤ) < (thickness 14 : ℤ)) ∧
      (∀ z : ℤ, xiVal 0 14 (shift 600 1) 0 z =
        xiVal 0 14 (shift 600 0) 0 (z + shift 600 1))) :=
  ⟨by decide, by decide,
   c5_speedlines_shift_pattern 0 600 1 14 0 0 (by decide) (by decide)⟩

/-- C8.  For a valid density (positive stride period), every entry of the
frame returned by `make_frame(t)` is `0` or `255`, and the allocated buffer
shape is `(1280, 720, 3)` independently of `t`. -/
theorem c8_frame_shape_and_values (dx speed t : ℝ) (density y px : ℕ)
    (_hp : 0 < period density) :
    (framePx dx density speed t y px = 0 ∨ framePx dx density speed t y px = 255) ∧
    frameShape t = (1280, 720, 3) := by
  constructor
  · by_cases h : litPixel dx density (shift speed t) y px
    · right; simp [framePx, h]
    · left; simp [framePx, h]
  · rfl

/-- Witness for C8 at `dx = 0`, `speed = 600`, `t = 1`, `density = 14`,
`y = 0`, `px = 0`. -/
theorem c8_frame_shape_and_values_witness :
    0 < period 14 ∧
    ((framePx 0 14 600 1 0 0 = 0 ∨ framePx 0 14 600 1 0 0 = 255) ∧
      frameShape 1 = (1280, 720, 3)) :=
  ⟨by decide, c8_frame_shape_and_values 0 600 1 14 0 0 (by decide)⟩

end DailyVideo
